import Mathlib

/-!
Shallow embedding of `src/index.js` of react-native-image-view.

JavaScript numbers are modelled as rationals (`ℚ`); the screen dimensions
`screenWidth`/`screenHeight`, read at module load from `Dimensions.get`, are
explicit parameters. The one place the source produces `NaN` (the
`width < height` branch of `calcultateNextTranslate`, which divides by the
`undefined` obtained from destructuring `imageInitialScale` out of the number
returned by `getInitialScale`) is modelled with `Option ℚ`, `none` standing
for `NaN`.
-/

namespace ImageView

/-- A touch point (`TouchType` in the source). -/
structure Touch where
  pageX : ℚ
  pageY : ℚ
deriving DecidableEq

/-- A 2-D translate (`TranslateType` in the source). -/
structure Translate where
  x : ℚ
  y : ℚ
deriving DecidableEq

/-- Constant `IMAGE_SPEED_FOR_CLOSE = 1.1` (src/index.js line 59). -/
def IMAGE_SPEED_FOR_CLOSE : ℚ := 11 / 10

/-- Constant `SCALE_MAXIMUM = 5` (line 60). -/
def SCALE_MAXIMUM : ℚ := 5

/-- Constant `SCALE_EPSILON = 0.01` (line 62). -/
def SCALE_EPSILON : ℚ := 1 / 100

/-- Constant `SCALE_MULTIPLIER = 1.2` (line 63). -/
def SCALE_MULTIPLIER : ℚ := 6 / 5

/-- Constant `SCALE_MAX_MULTIPLIER = 3` (line 64). -/
def SCALE_MAX_MULTIPLIER : ℚ := 3

/-- Constant `FREEZE_SCROLL_DISTANCE = 15` (line 65). -/
def FREEZE_SCROLL_DISTANCE : ℚ := 15

/-- Source `getScale` (lines 123-124): `currentDistance / initialDistance * SCALE_MULTIPLIER`. -/
def getScale (currentDistance initialDistance : ℚ) : ℚ :=
  currentDistance / initialDistance * SCALE_MULTIPLIER

/-- Source `pow2abs` (line 125): `Math.pow(Math.abs(a - b), 2)`. -/
def pow2abs (a b : ℚ) : ℚ := |a - b| ^ 2

/-- Source `getDistance` (lines 135-143). `const [a, b] = touches` takes the first two
elements, `undefined` when absent, and the null check returns 0 in that case.
`Math.sqrt` is modelled by `Rat.sqrt`; the theorems below depend only on the
short-list guard, never on the value of the square root on the two-touch path. -/
def getDistance (touches : List Touch) : ℚ :=
  match touches with
  | a :: b :: _ => Rat.sqrt (pow2abs a.pageX b.pageX + pow2abs a.pageY b.pageY)
  | _ => 0

/-- Source `scalesAreEqual` (lines 228-229): `Math.abs(scaleA - scaleB) < SCALE_EPSILON`. -/
def scalesAreEqual (scaleA scaleB : ℚ) : Bool :=
  decide (|scaleA - scaleB| < SCALE_EPSILON)

/-- Source `calculateInitialScale` (lines 145-161). -/
def calculateInitialScale (screenWidth screenHeight imageWidth imageHeight : ℚ) : ℚ :=
  let screenRatio := screenHeight / screenWidth
  let imageRatio := imageHeight / imageWidth
  if imageWidth > screenWidth ∨ imageHeight > screenHeight then
    if screenRatio > imageRatio then
      screenWidth / imageWidth
    else
      screenHeight / imageHeight
  else
    1

/-- The per-axis closure `getTranslate` of `calculateInitalTranslate`
(lines 167-176); `axis` is the string `"x"` or `"y"` exactly as in the source. -/
def initialTranslateAxis (screenWidth screenHeight imageWidth imageHeight : ℚ)
    (axis : String) : ℚ :=
  let imageSize := if axis = "x" then imageWidth else imageHeight
  let screenSize := if axis = "x" then screenWidth else screenHeight
  if imageWidth ≥ imageHeight then
    (screenSize - imageSize) / 2
  else
    screenSize / 2 - imageSize / 2

/-- Source `calculateInitalTranslate` (lines 163-182), spelling kept from the source. -/
def calculateInitalTranslate (screenWidth screenHeight imageWidth imageHeight : ℚ) :
    Translate :=
  { x := initialTranslateAxis screenWidth screenHeight imageWidth imageHeight "x"
    y := initialTranslateAxis screenWidth screenHeight imageWidth imageHeight "y" }

/-- The value the spec's words ascribe to the initial translate: the image
centred on both axes, `((screenWidth - w) / 2, (screenHeight - h) / 2)`.
Stated from the claim, to be compared with `calculateInitalTranslate`. -/
def centeredTranslate (screenWidth screenHeight imageWidth imageHeight : ℚ) :
    Translate :=
  { x := (screenWidth - imageWidth) / 2
    y := (screenHeight - imageHeight) / 2 }

/-- Helper: for positive dimensions `calculateInitialScale` never exceeds 1. -/
theorem calculateInitialScale_le_one (sW sH w h : ℚ)
    (hsW : 0 < sW) (hsH : 0 < sH) (hw : 0 < w) (hh : 0 < h) :
    calculateInitialScale sW sH w h ≤ 1 := by
  unfold calculateInitialScale
  by_cases hbig : w > sW ∨ h > sH
  · simp only [hbig, if_true]
    by_cases hratio : sH / sW > h / w
    · simp only [hratio, if_true]
      rw [gt_iff_lt, div_lt_div_iff₀ hw hsW] at hratio
      rw [div_le_one hw]
      by_contra hlt
      push_neg at hlt
      rcases hbig with hW | hH
      · linarith
      · nlinarith
    · simp only [hratio, if_false]
      rw [gt_iff_lt, not_lt, div_le_div_iff₀ hsW hw] at hratio
      rw [div_le_one hh]
      by_contra hlt
      push_neg at hlt
      rcases hbig with hW | hH
      · nlinarith
      · linarith
  · simp only [hbig, if_false]
    exact le_refl 1

/-- C1: when the image exceeds the screen on either axis, `calculateInitialScale`
returns the smaller of `screenWidth / imageWidth` and `screenHeight / imageHeight`,
and the scaled image fits the screen on both axes; when the image fits the
screen on both axes it returns 1. -/
theorem initialScale_min_fits (sW sH w h : ℚ)
    (hsW : 0 < sW) (hsH : 0 < sH) (hw : 0 < w) (hh : 0 < h) :
    ((w > sW ∨ h > sH) →
      calculateInitialScale sW sH w h = min (sW / w) (sH / h) ∧
      calculateInitialScale sW sH w h * w ≤ sW ∧
      calculateInitialScale sW sH w h * h ≤ sH) ∧
    ((w ≤ sW ∧ h ≤ sH) → calculateInitialScale sW sH w h = 1) := by
  constructor
  · intro hbig
    have hmin : calculateInitialScale sW sH w h = min (sW / w) (sH / h) := by
      unfold calculateInitialScale
      simp only [hbig, if_true]
      by_cases hratio : sH / sW > h / w
      · simp only [hratio, if_true]
        rw [gt_iff_lt, div_lt_div_iff₀ hw hsW] at hratio
        have hle : sW / w ≤ sH / h := by
          rw [div_le_div_iff₀ hw hh]
          linarith
        exact (min_eq_left hle).symm
      · simp only [hratio, if_false]
        rw [gt_iff_lt, not_lt, div_le_div_iff₀ hsW hw] at hratio
        have hle : sH / h ≤ sW / w := by
          rw [div_le_div_iff₀ hh hw]
          linarith
        exact (min_eq_right hle).symm
    refine ⟨hmin, ?_, ?_⟩
    · rw [hmin]
      calc min (sW / w) (sH / h) * w ≤ sW / w * w :=
            mul_le_mul_of_nonneg_right (min_le_left _ _) (le_of_lt hw)
        _ = sW := div_mul_cancel₀ sW (ne_of_gt hw)
    · rw [hmin]
      calc min (sW / w) (sH / h) * h ≤ sH / h * h :=
            mul_le_mul_of_nonneg_right (min_le_right _ _) (le_of_lt hh)
        _ = sH := div_mul_cancel₀ sH (ne_of_gt hh)
  · intro ⟨hW, hH⟩
    unfold calculateInitialScale
    have : ¬(w > sW ∨ h > sH) := by
      push_neg
      exact ⟨hW, hH⟩
    simp only [this, if_false]

/-- Witness for C1 at concrete inputs: screen 750×1334, image 1500×1000
(wider than the screen) and image 300×300 (fits the screen). -/
theorem initialScale_min_fits_witness :
    calculateInitialScale 750 1334 1500 1000 = min ((750 : ℚ) / 1500) ((1334 : ℚ) / 1000) ∧
    calculateInitialScale 750 1334 300 300 = 1 := by
  refine ⟨?_, ?_⟩
  · exact ((initialScale_min_fits 750 1334 1500 1000 (by norm_num) (by norm_num)
      (by norm_num) (by norm_num)).1 (by norm_num)).1
  · exact (initialScale_min_fits 750 1334 300 300 (by norm_num) (by norm_num)
      (by norm_num) (by norm_num)).2 (by norm_num)

/-- C8: the two branches of `calculateInitalTranslate` compute the same value;
the result always centres the image on both axes, so the
`imageWidth >= imageHeight` test has no effect on the output. -/
theorem initialTranslate_branches_equal (sW sH w h : ℚ) :
    calculateInitalTranslate sW sH w h = centeredTranslate sW sH w h := by
  unfold calculateInitalTranslate centeredTranslate initialTranslateAxis
  have hx : ("x" = "x") = True := by simp
  have hy : ("y" = "x") = False := by simp
  by_cases hcmp : w ≥ h <;>
    simp only [hcmp, hx, hy, if_true, if_false] <;>
    refine congrArg₂ Translate.mk ?_ ?_ <;> ring

/-- The per-axis closure `getTranslate` of `calcultateNextTranslate`
(lines 632-675, spelling kept from the source). Line 640 destructures
`imageInitialScale` from the *number* returned by `getInitialScale`, so
`imageInitialScale` is `undefined`, and the `width < height`
smaller-than-screen branch evaluates
`screenSize / 2 - imageSize * (scale / undefined) / 2` to `NaN`, modelled
here as `none`; every other path yields a real number, modelled as `some`. -/
def nextTranslateAxis (screenWidth screenHeight width height : ℚ)
    (imageTranslate : Translate) (dx dy scale : ℚ) (axis : String) : Option ℚ :=
  let imageSize := if axis = "x" then width else height
  let screenSize := if axis = "x" then screenWidth else screenHeight
  let leftLimit := (scale * imageSize - imageSize) / 2
  let rightLimit := screenSize - imageSize - leftLimit
  let nextTranslate := if axis = "x" then imageTranslate.x + dx else imageTranslate.y + dy
  if screenSize > scale * imageSize then
    if width ≥ height then
      some ((screenSize - imageSize) / 2)
    else
      none
  else
    let clampedLeft := if nextTranslate > leftLimit then leftLimit else nextTranslate
    let clampedRight := if clampedLeft < rightLimit then rightLimit else clampedLeft
    some clampedRight

/-- Source `calcultateNextTranslate` (lines 632-675): the pair of the two axis values. -/
def calcultateNextTranslate (screenWidth screenHeight width height : ℚ)
    (imageTranslate : Translate) (dx dy scale : ℚ) : Option ℚ × Option ℚ :=
  (nextTranslateAxis screenWidth screenHeight width height imageTranslate dx dy scale "x",
   nextTranslateAxis screenWidth screenHeight width height imageTranslate dx dy scale "y")

/-- Helper: the source's two sequential `if` clamps equal `max R (min L nt)`
and land in `[R, L]` whenever `R ≤ L`. -/
theorem clamp_seq_spec (L R nt : ℚ) (hRL : R ≤ L) :
    (if (if nt > L then L else nt) < R then R else (if nt > L then L else nt)) =
      max R (min L nt) ∧
    R ≤ max R (min L nt) ∧ max R (min L nt) ≤ L := by
  refine ⟨?_, le_max_left _ _, max_le hRL (min_le_left _ _)⟩
  by_cases h1 : nt > L
  · simp only [h1, if_true]
    rw [if_neg (not_lt.mpr hRL), min_eq_left (le_of_lt h1), max_eq_right hRL]
  · simp only [h1, if_false]
    push_neg at h1
    rw [min_eq_right h1]
    by_cases h2 : nt < R
    · rw [if_pos h2, max_eq_left (le_of_lt h2)]
    · push_neg at h2
      rw [if_neg (not_lt.mpr h2), max_eq_right h2]

/-- C3: on an axis where the scaled image is at least as large as the screen,
`calcultateNextTranslate` clamps the dragged position to
`[screenSize - imageSize - leftLimit, leftLimit]` with
`leftLimit = (scale * imageSize - imageSize) / 2`. -/
theorem nextTranslate_clamped (sW sH w h : ℚ) (t : Translate) (dx dy scale : ℚ) :
    (sW ≤ scale * w →
      nextTranslateAxis sW sH w h t dx dy scale "x" =
        some (max (sW - w - (scale * w - w) / 2)
          (min ((scale * w - w) / 2) (t.x + dx))) ∧
      sW - w - (scale * w - w) / 2 ≤
        max (sW - w - (scale * w - w) / 2) (min ((scale * w - w) / 2) (t.x + dx)) ∧
      max (sW - w - (scale * w - w) / 2) (min ((scale * w - w) / 2) (t.x + dx)) ≤
        (scale * w - w) / 2) ∧
    (sH ≤ scale * h →
      nextTranslateAxis sW sH w h t dx dy scale "y" =
        some (max (sH - h - (scale * h - h) / 2)
          (min ((scale * h - h) / 2) (t.y + dy))) ∧
      sH - h - (scale * h - h) / 2 ≤
        max (sH - h - (scale * h - h) / 2) (min ((scale * h - h) / 2) (t.y + dy)) ∧
      max (sH - h - (scale * h - h) / 2) (min ((scale * h - h) / 2) (t.y + dy)) ≤
        (scale * h - h) / 2) := by
  have hx : ("x" = "x") = True := by simp
  have hy : ("y" = "x") = False := by simp
  constructor
  · intro hle
    have hRL : sW - w - (scale * w - w) / 2 ≤ (scale * w - w) / 2 := by linarith
    have key := clamp_seq_spec ((scale * w - w) / 2) (sW - w - (scale * w - w) / 2)
      (t.x + dx) hRL
    unfold nextTranslateAxis
    simp only [hx, hy, if_true, if_false]
    rw [if_neg (not_lt.mpr hle)]
    exact ⟨congrArg some key.1, key.2⟩
  · intro hle
    have hRL : sH - h - (scale * h - h) / 2 ≤ (scale * h - h) / 2 := by linarith
    have key := clamp_seq_spec ((scale * h - h) / 2) (sH - h - (scale * h - h) / 2)
      (t.y + dy) hRL
    unfold nextTranslateAxis
    simp only [hx, hy, if_true, if_false]
    rw [if_neg (not_lt.mpr hle)]
    exact ⟨congrArg some key.1, key.2⟩

/-- Witness for C3: screen 750 wide, image 500 wide at scale 2 (scaled width
1000 ≥ 750), dragged to -600; the clamp lands on the right limit 0. -/
theorem nextTranslate_clamped_witness :
    nextTranslateAxis 750 1334 500 400 { x := 0, y := 0 } (-600) 0 2 "x" =
      some 0 := by
  have := ((nextTranslate_clamped 750 1334 500 400 { x := 0, y := 0 }
    (-600) 0 2).1 (by norm_num)).1
  rw [this]
  norm_num

/-- C4 counterexample: screen 750×1334, image 100×200 (width < height) at
scale 1; on the y axis the scaled image (200) is strictly smaller than the
screen (1334), yet the result is `NaN` (`none`), not the centring value
`(1334 - 200) / 2`: line 640's destructuring of a number leaves
`imageInitialScale` undefined, so the `width < height` branch divides by
`undefined`. -/
theorem nextTranslate_center_counterexample :
    (1334 : ℚ) > 1 * 200 ∧ (100 : ℚ) < 200 ∧
    nextTranslateAxis 750 1334 100 200 { x := 0, y := 0 } 0 0 1 "y" = none ∧
    nextTranslateAxis 750 1334 100 200 { x := 0, y := 0 } 0 0 1 "y" ≠
      some ((1334 - 200) / 2) := by
  have hxs : ("x" = "x") = True := by simp
  have hys : ("y" = "x") = False := by simp
  have hnone : nextTranslateAxis 750 1334 100 200 { x := 0, y := 0 } 0 0 1 "y" =
      none := by
    unfold nextTranslateAxis
    simp only [hxs, hys, if_true, if_false]
    norm_num
  refine ⟨by norm_num, by norm_num, hnone, ?_⟩
  rw [hnone]
  simp

/-- C4 (amended): on an axis where the scaled image is strictly smaller than
the screen, `calcultateNextTranslate` centres the image
(`(screenSize - imageSize) / 2`) when `width ≥ height`, but produces `NaN`
(`none`) when `width < height`. -/
theorem nextTranslate_smaller_screen (sW sH w h : ℚ) (t : Translate)
    (dx dy scale : ℚ) :
    (scale * w < sW →
      nextTranslateAxis sW sH w h t dx dy scale "x" =
        if w ≥ h then some ((sW - w) / 2) else none) ∧
    (scale * h < sH →
      nextTranslateAxis sW sH w h t dx dy scale "y" =
        if w ≥ h then some ((sH - h) / 2) else none) := by
  have hx : ("x" = "x") = True := by simp
  have hy : ("y" = "x") = False := by simp
  constructor
  · intro hlt
    unfold nextTranslateAxis
    simp only [hx, hy, if_true, if_false]
    rw [if_pos hlt]
  · intro hlt
    unfold nextTranslateAxis
    simp only [hx, hy, if_true, if_false]
    rw [if_pos hlt]

/-- Witness for the amended C4: a 300×200 image centres on x
(`(750 - 300) / 2 = 225`), while a 100×200 image yields `NaN` on x. -/
theorem nextTranslate_smaller_screen_witness :
    nextTranslateAxis 750 1334 300 200 { x := 0, y := 0 } 0 0 1 "x" =
      some 225 ∧
    nextTranslateAxis 750 1334 100 200 { x := 0, y := 0 } 0 0 1 "x" = none := by
  constructor
  · have := (nextTranslate_smaller_screen 750 1334 300 200 { x := 0, y := 0 }
      0 0 1).1 (by norm_num)
    rw [this]
    norm_num
  · have := (nextTranslate_smaller_screen 750 1334 100 200 { x := 0, y := 0 }
      0 0 1).1 (by norm_num)
    rw [this]
    norm_num

/-- The scale-update path of `onGestureMove` (lines 405-469): the early
returns (`isScrolling`, zero initial distance, fewer than two touches) are
modelled as `none`; otherwise the new value written to `imageScaleValue` is
returned. Lines 410-412 first replace `initialTouches` by the current touches
when a second finger just landed (`currentTouchesNum === 1` and
`touches.length === 2`). -/
def onGestureMoveScale (isScrolling : Bool) (currentTouchesNum : ℕ)
    (touches initialTouches : List Touch)
    (imageScale imageInitialScale : ℚ) : Option ℚ :=
  if isScrolling then
    none
  else
    let initialTouches :=
      if currentTouchesNum = 1 ∧ touches.length = 2 then touches else initialTouches
    let currentDistance := getDistance touches
    let initialDistance := getDistance initialTouches
    if initialDistance = 0 then
      none
    else if touches.length < 2 then
      none
    else
      let nextScale := getScale currentDistance initialDistance * imageScale
      some (if nextScale < imageInitialScale then imageInitialScale
            else if nextScale > SCALE_MAXIMUM then SCALE_MAXIMUM
            else nextScale)

/-- C2: on a two-finger move with nonzero initial distance, the scale set by
`onGestureMove` is `(currentDistance / initialDistance) * 1.2 * imageScale`
clamped below by the image's initial scale and above by `SCALE_MAXIMUM = 5`,
and that value lies in `[imageInitialScale, 5]`. -/
theorem gestureMove_scale_clamped (currentTouchesNum : ℕ)
    (touches initialTouches : List Touch) (imageScale : ℚ)
    (sW sH w h : ℚ) (hsW : 0 < sW) (hsH : 0 < sH) (hw : 0 < w) (hh : 0 < h)
    (hlen : touches.length = 2)
    (hd : getDistance (if currentTouchesNum = 1 ∧ touches.length = 2 then touches
        else initialTouches) ≠ 0) :
    onGestureMoveScale false currentTouchesNum touches initialTouches
        imageScale (calculateInitialScale sW sH w h) =
      some (if getDistance touches /
              getDistance (if currentTouchesNum = 1 ∧ touches.length = 2 then touches
                else initialTouches) * SCALE_MULTIPLIER * imageScale <
            calculateInitialScale sW sH w h then
          calculateInitialScale sW sH w h
        else if getDistance touches /
              getDistance (if currentTouchesNum = 1 ∧ touches.length = 2 then touches
                else initialTouches) * SCALE_MULTIPLIER * imageScale >
            SCALE_MAXIMUM then
          SCALE_MAXIMUM
        else
          getDistance touches /
              getDistance (if currentTouchesNum = 1 ∧ touches.length = 2 then touches
                else initialTouches) * SCALE_MULTIPLIER * imageScale) ∧
    calculateInitialScale sW sH w h ≤
      (if getDistance touches /
            getDistance (if currentTouchesNum = 1 ∧ touches.length = 2 then touches
              else initialTouches) * SCALE_MULTIPLIER * imageScale <
          calculateInitialScale sW sH w h then
        calculateInitialScale sW sH w h
      else if getDistance touches /
            getDistance (if currentTouchesNum = 1 ∧ touches.length = 2 then touches
              else initialTouches) * SCALE_MULTIPLIER * imageScale >
          SCALE_MAXIMUM then
        SCALE_MAXIMUM
      else
        getDistance touches /
            getDistance (if currentTouchesNum = 1 ∧ touches.length = 2 then touches
              else initialTouches) * SCALE_MULTIPLIER * imageScale) ∧
    (if getDistance touches /
          getDistance (if currentTouchesNum = 1 ∧ touches.length = 2 then touches
            else initialTouches) * SCALE_MULTIPLIER * imageScale <
        calculateInitialScale sW sH w h then
      calculateInitialScale sW sH w h
    else if getDistance touches /
          getDistance (if currentTouchesNum = 1 ∧ touches.length = 2 then touches
            else initialTouches) * SCALE_MULTIPLIER * imageScale >
        SCALE_MAXIMUM then
      SCALE_MAXIMUM
    else
      getDistance touches /
          getDistance (if currentTouchesNum = 1 ∧ touches.length = 2 then touches
            else initialTouches) * SCALE_MULTIPLIER * imageScale) ≤
      SCALE_MAXIMUM := by
  have hinit5 : calculateInitialScale sW sH w h ≤ SCALE_MAXIMUM := by
    have := calculateInitialScale_le_one sW sH w h hsW hsH hw hh
    unfold SCALE_MAXIMUM
    linarith
  set init := calculateInitialScale sW sH w h with hinitdef
  set nextScale := getDistance touches /
      getDistance (if currentTouchesNum = 1 ∧ touches.length = 2 then touches
        else initialTouches) * SCALE_MULTIPLIER * imageScale with hnextdef
  refine ⟨?_, ?_, ?_⟩
  · unfold onGestureMoveScale
    simp only [Bool.false_eq_true, if_false]
    rw [if_neg hd, if_neg (by rw [hlen]; norm_num : ¬touches.length < 2)]
    rfl
  · by_cases h1 : nextScale < init
    · rw [if_pos h1]
    · rw [if_neg h1]
      push_neg at h1
      by_cases h2 : nextScale > SCALE_MAXIMUM
      · rw [if_pos h2]
        exact hinit5
      · rw [if_neg h2]
        exact h1
  · by_cases h1 : nextScale < init
    · rw [if_pos h1]
      exact hinit5
    · rw [if_neg h1]
      by_cases h2 : nextScale > SCALE_MAXIMUM
      · rw [if_pos h2]
      · rw [if_neg h2]
        push_neg at h2
        exact h2

/-- Witness for C2: two fingers move from distance 5 (`(0,0)` and `(3,4)`)
to distance 10 (`(0,0)` and `(6,8)`) on a 300×300 image on a 750×1334 screen
(initial scale 1), from scale 1: the resulting scale is
`10 / 5 * 1.2 * 1 = 12/5`, inside `[1, 5]`. -/
theorem gestureMove_scale_clamped_witness :
    onGestureMoveScale false 2 [⟨0, 0⟩, ⟨6, 8⟩] [⟨0, 0⟩, ⟨3, 4⟩] 1
        (calculateInitialScale 750 1334 300 300) = some (12 / 5) := by
  have hd5 : getDistance [(⟨0, 0⟩ : Touch), ⟨3, 4⟩] = 5 := by
    show Rat.sqrt (pow2abs 0 3 + pow2abs 0 4) = 5
    have : pow2abs 0 3 + pow2abs 0 4 = 5 * 5 := by
      unfold pow2abs
      norm_num
    rw [this, Rat.sqrt_eq]
    norm_num
  have hd10 : getDistance [(⟨0, 0⟩ : Touch), ⟨6, 8⟩] = 10 := by
    show Rat.sqrt (pow2abs 0 6 + pow2abs 0 8) = 10
    have : pow2abs 0 6 + pow2abs 0 8 = 10 * 10 := by
      unfold pow2abs
      norm_num
    rw [this, Rat.sqrt_eq]
    norm_num
  have hinit : calculateInitialScale 750 1334 300 300 = 1 := by
    unfold calculateInitialScale
    norm_num
  have key := gestureMove_scale_clamped 2 [⟨0, 0⟩, ⟨6, 8⟩] [⟨0, 0⟩, ⟨3, 4⟩] 1
    750 1334 300 300 (by norm_num) (by norm_num) (by norm_num) (by norm_num)
    (by decide)
    (by
      rw [if_neg (by norm_num :
        ¬((2 : ℕ) = 1 ∧ ([(⟨0, 0⟩ : Touch), ⟨6, 8⟩]).length = 2)), hd5]
      norm_num)
  rw [key.1]
  congr 1
  rw [if_neg (by norm_num : ¬((2 : ℕ) = 1 ∧ ([(⟨0, 0⟩ : Touch), ⟨6, 8⟩]).length = 2)),
    hd5, hd10, hinit]
  unfold SCALE_MULTIPLIER SCALE_MAXIMUM
  norm_num

/-- C9: `getDistance` returns 0 on any touch list with fewer than two touches,
and `onGestureMove` performs no scale update (returns before the division)
whenever the initial distance is 0 or the gesture has fewer than two
touches. -/
theorem getDistance_guards (isScrolling : Bool) (currentTouchesNum : ℕ)
    (touches initialTouches : List Touch) (imageScale imageInitialScale : ℚ) :
    (touches.length < 2 → getDistance touches = 0) ∧
    (getDistance (if currentTouchesNum = 1 ∧ touches.length = 2 then touches
        else initialTouches) = 0 →
      onGestureMoveScale isScrolling currentTouchesNum touches initialTouches
        imageScale imageInitialScale = none) ∧
    (touches.length < 2 →
      onGestureMoveScale isScrolling currentTouchesNum touches initialTouches
        imageScale imageInitialScale = none) := by
  refine ⟨?_, ?_, ?_⟩
  · intro hlen
    match touches with
    | [] => rfl
    | [a] => rfl
    | a :: b :: rest =>
      exfalso
      simp only [List.length_cons] at hlen
      omega
  · intro hzero
    unfold onGestureMoveScale
    cases isScrolling
    · simp only [Bool.false_eq_true, if_false]
      rw [if_pos hzero]
    · rfl
  · intro hlen
    unfold onGestureMoveScale
    cases isScrolling
    · simp only [Bool.false_eq_true, if_false]
      by_cases hzero : getDistance (if currentTouchesNum = 1 ∧ touches.length = 2
          then touches else initialTouches) = 0
      · rw [if_pos hzero]
      · rw [if_neg hzero, if_pos hlen]
    · rfl

/-- Witness for C9: the empty and one-touch lists give distance 0, and both
early-return situations leave the scale unset. -/
theorem getDistance_guards_witness :
    getDistance [] = 0 ∧ getDistance [⟨1, 2⟩] = 0 ∧
    onGestureMoveScale false 2 [⟨0, 0⟩, ⟨3, 4⟩] [⟨1, 2⟩] 1 1 = none ∧
    onGestureMoveScale false 2 [⟨0, 0⟩] [⟨0, 0⟩, ⟨3, 4⟩] 1 1 = none := by
  refine ⟨(getDistance_guards false 2 [] [] 1 1).1 (by norm_num),
    (getDistance_guards false 2 [⟨1, 2⟩] [] 1 1).1 (by norm_num),
    (getDistance_guards false 2 [⟨0, 0⟩, ⟨3, 4⟩] [⟨1, 2⟩] 1 1).2.1 ?_,
    (getDistance_guards false 2 [⟨0, 0⟩] [⟨0, 0⟩, ⟨3, 4⟩] 1 1).2.2 (by norm_num)⟩
  rw [if_neg (by norm_num : ¬((2 : ℕ) = 1 ∧ ([(⟨0, 0⟩ : Touch), ⟨3, 4⟩]).length = 2))]
  rfl

/-- The inputs `onGestureRelease` (lines 471-558) reads: the gesture state
(`dx`, `dy`, `vy`), the stored `state.imageScale`, the animated
`imageScaleValue._value`, whether `doubleTapTimer` is armed, and the pieces of
state consumed by `calcultateNextTranslate` (current translate and the current
image's dimensions). -/
structure ReleaseInput where
  dx : ℚ
  dy : ℚ
  vy : ℚ
  imageScale : ℚ
  scaleValue : ℚ
  doubleTapTimerActive : Bool
  imageTranslate : Translate
  width : ℚ
  height : ℚ
deriving DecidableEq

/-- The observable outcome of `onGestureRelease`: the scale and translate
stored back into state, the recomputed `scrollEnabled`, and whether the
close animation (whose completion callback invokes `close`) was started. -/
structure ReleaseResult where
  imageScale : ℚ
  imageTranslate : Translate
  scrollEnabled : Bool
  closes : Bool
deriving DecidableEq

/-- Source `onGestureRelease` (lines 471-558). A stationary release
(`!dx && !dy && scalesAreEqual(imageScale, scale)`) with the double-tap timer
armed reassigns `scale` (triple it near the initial scale, reset to the
initial scale otherwise); `calcultateNextTranslate` then produces the next
translate, whose `NaN` components (`none`) are replaced by the initial
translate (lines 513-519); `scrollEnabled` is computed on lines 508-511 with
the pre-replacement values (`NaN === t` is false, i.e. `none ≠ some t`); the
close animation starts iff the final scale equals the initial scale and
`|vy| ≥ IMAGE_SPEED_FOR_CLOSE` (lines 540-551). -/
def onGestureRelease (screenWidth screenHeight : ℚ)
    (imageInitialScale : ℚ) (imageInitialTranslate : Translate)
    (inp : ReleaseInput) : ReleaseResult :=
  let scale :=
    if inp.dx = 0 ∧ inp.dy = 0 ∧ scalesAreEqual inp.imageScale inp.scaleValue = true ∧
        inp.doubleTapTimerActive = true then
      if scalesAreEqual imageInitialScale inp.scaleValue = true then
        inp.scaleValue * SCALE_MAX_MULTIPLIER
      else
        imageInitialScale
    else
      inp.scaleValue
  let next := calcultateNextTranslate screenWidth screenHeight inp.width inp.height
      inp.imageTranslate inp.dx inp.dy scale
  let scrollEnabled := decide (scale = imageInitialScale) &&
      decide (next.1 = some imageInitialTranslate.x) &&
      decide (next.2 = some imageInitialTranslate.y)
  let x := next.1.getD imageInitialTranslate.x
  let y := next.2.getD imageInitialTranslate.y
  let closes := decide (scale = imageInitialScale) &&
      decide (IMAGE_SPEED_FOR_CLOSE ≤ |inp.vy|)
  { imageScale := scale
    imageTranslate := { x := x, y := y }
    scrollEnabled := scrollEnabled
    closes := closes }

/-- The modal-visibility state touched by `close` (lines 677-683). -/
structure ModalState where
  isVisible : Bool
deriving DecidableEq

/-- Source `close` (lines 677-683): sets `isVisible` to `false`, and invokes
`props.onClose` exactly when it is a function; the returned `Bool` records
whether the callback was invoked. -/
def close (hasOnCloseCallback : Bool) (st : ModalState) : ModalState × Bool :=
  ({ st with isVisible := false }, hasOnCloseCallback)

/-- Unfolding lemma: the scale stored by `onGestureRelease`. -/
theorem onGestureRelease_imageScale (sW sH init : ℚ) (initT : Translate)
    (inp : ReleaseInput) :
    (onGestureRelease sW sH init initT inp).imageScale =
      if inp.dx = 0 ∧ inp.dy = 0 ∧ scalesAreEqual inp.imageScale inp.scaleValue = true ∧
          inp.doubleTapTimerActive = true then
        if scalesAreEqual init inp.scaleValue = true then
          inp.scaleValue * SCALE_MAX_MULTIPLIER
        else
          init
      else
        inp.scaleValue := rfl

/-- Unfolding lemma: the close flag of `onGestureRelease`. -/
theorem onGestureRelease_closes (sW sH init : ℚ) (initT : Translate)
    (inp : ReleaseInput) :
    (onGestureRelease sW sH init initT inp).closes =
      (decide ((onGestureRelease sW sH init initT inp).imageScale = init) &&
        decide (IMAGE_SPEED_FOR_CLOSE ≤ |inp.vy|)) := rfl

/-- C5: a gesture release triggers the closing animation iff the released
scale equals the current image's initial scale and `|vy| ≥ 1.1`; a release
whose final scale differs from the initial scale never closes; and `close`
itself sets `isVisible` to `false` and invokes the `onClose` callback when
one was provided. -/
theorem release_closes_iff (sW sH init : ℚ) (initT : Translate)
    (inp : ReleaseInput) (hasOnClose : Bool) (st : ModalState) :
    ((onGestureRelease sW sH init initT inp).closes = true ↔
      ((onGestureRelease sW sH init initT inp).imageScale = init ∧
        IMAGE_SPEED_FOR_CLOSE ≤ |inp.vy|)) ∧
    ((onGestureRelease sW sH init initT inp).imageScale ≠ init →
      (onGestureRelease sW sH init initT inp).closes = false) ∧
    (close hasOnClose st).1.isVisible = false ∧
    (close true st).2 = true := by
  have hiff : (onGestureRelease sW sH init initT inp).closes = true ↔
      ((onGestureRelease sW sH init initT inp).imageScale = init ∧
        IMAGE_SPEED_FOR_CLOSE ≤ |inp.vy|) := by
    rw [onGestureRelease_closes]
    simp [Bool.and_eq_true, decide_eq_true_eq]
  refine ⟨hiff, ?_, rfl, rfl⟩
  intro hne
  cases hc : (onGestureRelease sW sH init initT inp).closes
  · rfl
  · exact absurd (hiff.mp hc).1 hne

/-- Witness for C5: a flick (`dx = 5`, `vy = 2`) at scale 1 on a 300×300
image whose initial scale is 1 starts the close animation. -/
theorem release_closes_iff_witness :
    (onGestureRelease 750 1334 1 { x := 225, y := 517 }
      { dx := 5, dy := 0, vy := 2, imageScale := 1, scaleValue := 1,
        doubleTapTimerActive := false, imageTranslate := { x := 225, y := 517 },
        width := 300, height := 300 }).closes = true := by
  exact (release_closes_iff 750 1334 1 { x := 225, y := 517 }
    { dx := 5, dy := 0, vy := 2, imageScale := 1, scaleValue := 1,
      doubleTapTimerActive := false, imageTranslate := { x := 225, y := 517 },
      width := 300, height := 300 } true { isVisible := true }).1.mpr
    ⟨by rw [onGestureRelease_imageScale]; norm_num, by
      unfold IMAGE_SPEED_FOR_CLOSE
      norm_num⟩

/-- Helper: a scale is within `SCALE_EPSILON` of itself. -/
theorem scalesAreEqual_self (s : ℚ) : scalesAreEqual s s = true := by
  unfold scalesAreEqual
  rw [sub_self, abs_zero]
  simp only [decide_eq_true_eq, SCALE_EPSILON]
  norm_num

/-- Helper: `s` and `s * 3` are not within `SCALE_EPSILON` once
`SCALE_EPSILON ≤ 2 * s`. -/
theorem scalesAreEqual_triple_false (s : ℚ) (heps : SCALE_EPSILON ≤ 2 * s) :
    scalesAreEqual s (s * SCALE_MAX_MULTIPLIER) = false := by
  unfold scalesAreEqual
  rw [decide_eq_false_iff_not, not_lt]
  have h1 : s - s * SCALE_MAX_MULTIPLIER = -(2 * s) := by
    unfold SCALE_MAX_MULTIPLIER
    ring
  have hpos : 0 < s := by
    unfold SCALE_EPSILON at heps
    linarith
  rw [h1, abs_neg, abs_of_pos (by linarith : (0 : ℚ) < 2 * s)]
  exact heps

/-- C7 counterexample: with screen 750×1334 and a 187500×100 image, the
initial scale is `1/250`; after a first double-tap from the initial scale the
stored scale is `3/250`, still within `SCALE_EPSILON = 0.01` of `1/250`, so a
second double-tap triples again (to `9/250`) instead of returning to the
initial scale. -/
theorem doubleTap_roundTrip_counterexample :
    calculateInitialScale 750 1334 187500 100 = 1 / 250 ∧
    (onGestureRelease 750 1334 (1 / 250)
      (calculateInitalTranslate 750 1334 187500 100)
      { dx := 0, dy := 0, vy := 0,
        imageScale := (onGestureRelease 750 1334 (1 / 250)
          (calculateInitalTranslate 750 1334 187500 100)
          { dx := 0, dy := 0, vy := 0, imageScale := 1 / 250,
            scaleValue := 1 / 250, doubleTapTimerActive := true,
            imageTranslate := calculateInitalTranslate 750 1334 187500 100,
            width := 187500, height := 100 }).imageScale,
        scaleValue := (onGestureRelease 750 1334 (1 / 250)
          (calculateInitalTranslate 750 1334 187500 100)
          { dx := 0, dy := 0, vy := 0, imageScale := 1 / 250,
            scaleValue := 1 / 250, doubleTapTimerActive := true,
            imageTranslate := calculateInitalTranslate 750 1334 187500 100,
            width := 187500, height := 100 }).imageScale,
        doubleTapTimerActive := true,
        imageTranslate := (onGestureRelease 750 1334 (1 / 250)
          (calculateInitalTranslate 750 1334 187500 100)
          { dx := 0, dy := 0, vy := 0, imageScale := 1 / 250,
            scaleValue := 1 / 250, doubleTapTimerActive := true,
            imageTranslate := calculateInitalTranslate 750 1334 187500 100,
            width := 187500, height := 100 }).imageTranslate,
        width := 187500, height := 100 }).imageScale ≠ 1 / 250 := by
  have hinit : calculateInitialScale 750 1334 187500 100 = 1 / 250 := by
    unfold calculateInitialScale
    norm_num
  have h1 : (onGestureRelease 750 1334 (1 / 250)
      (calculateInitalTranslate 750 1334 187500 100)
      { dx := 0, dy := 0, vy := 0, imageScale := 1 / 250,
        scaleValue := 1 / 250, doubleTapTimerActive := true,
        imageTranslate := calculateInitalTranslate 750 1334 187500 100,
        width := 187500, height := 100 }).imageScale = 3 / 250 := by
    rw [onGestureRelease_imageScale]
    norm_num [scalesAreEqual, SCALE_EPSILON, SCALE_MAX_MULTIPLIER]
  refine ⟨hinit, ?_⟩
  rw [onGestureRelease_imageScale]
  norm_num [h1, scalesAreEqual, SCALE_EPSILON, SCALE_MAX_MULTIPLIER]
  rw [abs_of_pos (by norm_num : (0 : ℚ) < 1 / 125)]
  norm_num

/-- C7 (amended): a stationary release (`dx = dy = 0`, stored scale within
`SCALE_EPSILON` of the animated scale) with the double-tap timer armed sets
the scale to `scale * SCALE_MAX_MULTIPLIER = 3` times the current scale when
the current scale is within `SCALE_EPSILON` of the initial scale, and to the
initial scale otherwise; two successive double-taps starting from the initial
scale return to the initial scale provided `SCALE_EPSILON ≤ 2 * initialScale`
(otherwise the tripled scale still counts as "approximately initial" and the
second tap triples again). -/
theorem doubleTap_toggle (sW sH init : ℚ) (initT : Translate)
    (inp : ReleaseInput) (hdx : inp.dx = 0) (hdy : inp.dy = 0)
    (htap : scalesAreEqual inp.imageScale inp.scaleValue = true)
    (htimer : inp.doubleTapTimerActive = true) :
    (scalesAreEqual init inp.scaleValue = true →
      (onGestureRelease sW sH init initT inp).imageScale =
        inp.scaleValue * SCALE_MAX_MULTIPLIER) ∧
    (scalesAreEqual init inp.scaleValue = false →
      (onGestureRelease sW sH init initT inp).imageScale = init) ∧
    (SCALE_EPSILON ≤ 2 * init → inp.scaleValue = init →
      ∀ inp2 : ReleaseInput, inp2.dx = 0 → inp2.dy = 0 →
        inp2.doubleTapTimerActive = true →
        inp2.imageScale = (onGestureRelease sW sH init initT inp).imageScale →
        inp2.scaleValue = (onGestureRelease sW sH init initT inp).imageScale →
        (onGestureRelease sW sH init initT inp2).imageScale = init) := by
  have hcond : inp.dx = 0 ∧ inp.dy = 0 ∧
      scalesAreEqual inp.imageScale inp.scaleValue = true ∧
      inp.doubleTapTimerActive = true := ⟨hdx, hdy, htap, htimer⟩
  refine ⟨?_, ?_, ?_⟩
  · intro heq
    rw [onGestureRelease_imageScale, if_pos hcond, if_pos heq]
  · intro hne
    rw [onGestureRelease_imageScale, if_pos hcond, if_neg (by simp [hne])]
  · intro heps hval inp2 h2dx h2dy h2timer h2is h2sv
    have hfirst : (onGestureRelease sW sH init initT inp).imageScale =
        init * SCALE_MAX_MULTIPLIER := by
      rw [onGestureRelease_imageScale, if_pos hcond,
        if_pos (by rw [hval]; exact scalesAreEqual_self init), hval]
    have h2cond : inp2.dx = 0 ∧ inp2.dy = 0 ∧
        scalesAreEqual inp2.imageScale inp2.scaleValue = true ∧
        inp2.doubleTapTimerActive = true := by
      refine ⟨h2dx, h2dy, ?_, h2timer⟩
      rw [h2is, h2sv]
      exact scalesAreEqual_self _
    rw [onGestureRelease_imageScale, if_pos h2cond, if_neg ?_]
    rw [h2sv, hfirst]
    simp [scalesAreEqual_triple_false init heps]

/-- Witness for the amended C7: on a 750×1334 screen with initial scale 1
(so `SCALE_EPSILON ≤ 2`), a double-tap from scale 1 stores scale 3, and a
second double-tap from scale 3 returns to scale 1. -/
theorem doubleTap_toggle_witness :
    (onGestureRelease 750 1334 1 { x := 225, y := 517 }
      { dx := 0, dy := 0, vy := 0, imageScale := 1, scaleValue := 1,
        doubleTapTimerActive := true, imageTranslate := { x := 225, y := 517 },
        width := 300, height := 300 }).imageScale = 3 ∧
    (onGestureRelease 750 1334 1 { x := 225, y := 517 }
      { dx := 0, dy := 0, vy := 0, imageScale := 3, scaleValue := 3,
        doubleTapTimerActive := true, imageTranslate := { x := 225, y := 517 },
        width := 300, height := 300 }).imageScale = 1 := by
  have key := doubleTap_toggle 750 1334 1 { x := 225, y := 517 }
    { dx := 0, dy := 0, vy := 0, imageScale := 1, scaleValue := 1,
      doubleTapTimerActive := true, imageTranslate := { x := 225, y := 517 },
      width := 300, height := 300 } rfl rfl (scalesAreEqual_self 1) rfl
  have hfirst := key.1 (scalesAreEqual_self 1)
  have hround := key.2.2 (by unfold SCALE_EPSILON; norm_num) rfl
    { dx := 0, dy := 0, vy := 0, imageScale := 3, scaleValue := 3,
      doubleTapTimerActive := true, imageTranslate := { x := 225, y := 517 },
      width := 300, height := 300 } rfl rfl rfl
    (by rw [hfirst]; unfold SCALE_MAX_MULTIPLIER; norm_num)
    (by rw [hfirst]; unfold SCALE_MAX_MULTIPLIER; norm_num)
  refine ⟨?_, hround⟩
  rw [hfirst]
  unfold SCALE_MAX_MULTIPLIER
  norm_num

/-- C10: the translate stored by `onGestureRelease` replaces any `NaN`
(`none`) component of `calcultateNextTranslate`'s result with the current
image's initial translate, and keeps every real (`some`) component, so the
stored `imageTranslate` is never `NaN`. -/
theorem release_translate_nan_guard (sW sH init : ℚ) (initT : Translate)
    (inp : ReleaseInput) :
    ((calcultateNextTranslate sW sH inp.width inp.height inp.imageTranslate
        inp.dx inp.dy (onGestureRelease sW sH init initT inp).imageScale).1 = none →
      (onGestureRelease sW sH init initT inp).imageTranslate.x = initT.x) ∧
    (∀ v, (calcultateNextTranslate sW sH inp.width inp.height inp.imageTranslate
        inp.dx inp.dy (onGestureRelease sW sH init initT inp).imageScale).1 = some v →
      (onGestureRelease sW sH init initT inp).imageTranslate.x = v) ∧
    ((calcultateNextTranslate sW sH inp.width inp.height inp.imageTranslate
        inp.dx inp.dy (onGestureRelease sW sH init initT inp).imageScale).2 = none →
      (onGestureRelease sW sH init initT inp).imageTranslate.y = initT.y) ∧
    (∀ v, (calcultateNextTranslate sW sH inp.width inp.height inp.imageTranslate
        inp.dx inp.dy (onGestureRelease sW sH init initT inp).imageScale).2 = some v →
      (onGestureRelease sW sH init initT inp).imageTranslate.y = v) := by
  have hx : (onGestureRelease sW sH init initT inp).imageTranslate.x =
      ((calcultateNextTranslate sW sH inp.width inp.height inp.imageTranslate
        inp.dx inp.dy (onGestureRelease sW sH init initT inp).imageScale).1).getD
        initT.x := rfl
  have hy : (onGestureRelease sW sH init initT inp).imageTranslate.y =
      ((calcultateNextTranslate sW sH inp.width inp.height inp.imageTranslate
        inp.dx inp.dy (onGestureRelease sW sH init initT inp).imageScale).2).getD
        initT.y := rfl
  refine ⟨?_, ?_, ?_, ?_⟩
  · intro hnone
    rw [hx, hnone]
    rfl
  · intro v hsome
    rw [hx, hsome]
    rfl
  · intro hnone
    rw [hy, hnone]
    rfl
  · intro v hsome
    rw [hy, hsome]
    rfl

/-- Witness for C10: a 100×200 image at scale 1 on a 750×1334 screen makes
`calcultateNextTranslate` produce `NaN` on y, and the stored y translate is
the initial one (567). -/
theorem release_translate_nan_guard_witness :
    (onGestureRelease 750 1334 1 { x := 325, y := 567 }
      { dx := 3, dy := 0, vy := 0, imageScale := 1, scaleValue := 1,
        doubleTapTimerActive := false, imageTranslate := { x := 325, y := 567 },
        width := 100, height := 200 }).imageTranslate.y = 567 := by
  have hscale : (onGestureRelease 750 1334 1 { x := 325, y := 567 }
      { dx := 3, dy := 0, vy := 0, imageScale := 1, scaleValue := 1,
        doubleTapTimerActive := false, imageTranslate := { x := 325, y := 567 },
        width := 100, height := 200 }).imageScale = 1 := by
    rw [onGestureRelease_imageScale]
    norm_num
  have hnone : (calcultateNextTranslate 750 1334 100 200 { x := 325, y := 567 }
      3 0 ((onGestureRelease 750 1334 1 { x := 325, y := 567 }
      { dx := 3, dy := 0, vy := 0, imageScale := 1, scaleValue := 1,
        doubleTapTimerActive := false, imageTranslate := { x := 325, y := 567 },
        width := 100, height := 200 }).imageScale)).2 = none := by
    rw [hscale]
    show nextTranslateAxis 750 1334 100 200 { x := 325, y := 567 } 3 0 1 "y" = none
    have hys : ("y" = "x") = False := by simp
    unfold nextTranslateAxis
    simp only [hys, if_false]
    norm_num
  exact (release_translate_nan_guard 750 1334 1 { x := 325, y := 567 }
    { dx := 3, dy := 0, vy := 0, imageScale := 1, scaleValue := 1,
      doubleTapTimerActive := false, imageTranslate := { x := 325, y := 567 },
      width := 100, height := 200 }).2.2.1 hnone

/-- JavaScript `Math.round`: round half toward positive infinity. -/
def jsRound (q : ℚ) : ℤ := ⌊q + 1 / 2⌋

/-- JavaScript truncation toward zero, as performed by the `%` operator. -/
def jsTrunc (q : ℚ) : ℤ := if 0 ≤ q then ⌊q⌋ else ⌈q⌉

/-- JavaScript `%` remainder: `a - b * trunc(a / b)`. -/
def jsMod (a b : ℚ) : ℚ := a - b * (jsTrunc (a / b) : ℚ)

/-- One entry of `this.imageInitialParams` (`getInitalParams`, lines 211-223). -/
structure InitialParams where
  scale : ℚ
  translate : Translate
deriving DecidableEq

/-- The component state read and written by `onNextImage`: `state.imageIndex`,
`state.imageScale`, `state.imageTranslate`, the two animated values, and the
`isScrolling` instance field. -/
structure GalleryState where
  imageIndex : ℤ
  imageScale : ℚ
  imageTranslate : Translate
  imageScaleValue : ℚ
  imageTranslateValue : Translate
  isScrolling : Bool
deriving DecidableEq

/-- Source `onNextImage` (lines 373-394). `contentOffset` may be absent
(`|| {x: 0}`); `isScrolling` is always reassigned to `x % screenWidth > 10`;
when the rounded index differs from the current one and is non-negative, the
image state and both animated values are reset to that image's precomputed
initial parameters. Indexing `imageInitialParams` out of range (reading
`.scale` of `undefined`) throws in JS and is modelled as `none`. -/
def onNextImage (screenWidth : ℚ) (imageInitialParams : List InitialParams)
    (st : GalleryState) (contentOffset : Option ℚ) : Option GalleryState :=
  let x := contentOffset.getD 0
  let nextImageIndex := jsRound (x / screenWidth)
  let st1 := { st with isScrolling := decide (jsMod x screenWidth > 10) }
  if st.imageIndex ≠ nextImageIndex ∧ 0 ≤ nextImageIndex then
    match imageInitialParams[nextImageIndex.toNat]? with
    | none => none
    | some p =>
      some { st1 with
              imageIndex := nextImageIndex
              imageScale := p.scale
              imageTranslate := p.translate
              imageScaleValue := p.scale
              imageTranslateValue := p.translate }
  else
    some st1

/-- C6: `onNextImage` computes the next index as
`round(contentOffset.x / screenWidth)`; when it differs from the current index
and is non-negative (and is in range of the precomputed parameters) it resets
`imageIndex`, `imageScale`, `imageTranslate` and both animated values to the
new image's initial parameters; when it equals the current index the image
state is unchanged (only `isScrolling` is reassigned). -/
theorem onNextImage_spec (sW : ℚ) (params : List InitialParams)
    (st : GalleryState) (contentOffset : Option ℚ) (p : InitialParams) :
    (jsRound (contentOffset.getD 0 / sW) ≠ st.imageIndex →
      0 ≤ jsRound (contentOffset.getD 0 / sW) →
      params[(jsRound (contentOffset.getD 0 / sW)).toNat]? = some p →
      onNextImage sW params st contentOffset =
        some { imageIndex := jsRound (contentOffset.getD 0 / sW),
               imageScale := p.scale, imageTranslate := p.translate,
               imageScaleValue := p.scale, imageTranslateValue := p.translate,
               isScrolling := decide (jsMod (contentOffset.getD 0) sW > 10) }) ∧
    (jsRound (contentOffset.getD 0 / sW) = st.imageIndex →
      onNextImage sW params st contentOffset =
        some { st with
                isScrolling := decide (jsMod (contentOffset.getD 0) sW > 10) }) := by
  constructor
  · intro hne hnn hget
    simp only [onNextImage]
    rw [if_pos ⟨Ne.symm hne, hnn⟩, hget]
  · intro heq
    simp only [onNextImage]
    rw [if_neg (by rw [heq]; simp)]

/-- Witness for C6: scrolling from image 0 to offset `x = 750` on a screen of
width 750 selects index 1 and installs that image's initial scale `1/2` and
translate `(10, 20)`; the same offset with `imageIndex` already 1 leaves the
image state unchanged. -/
theorem onNextImage_spec_witness :
    onNextImage 750
        [{ scale := 1, translate := { x := 0, y := 0 } },
         { scale := 1 / 2, translate := { x := 10, y := 20 } }]
        { imageIndex := 0, imageScale := 1, imageTranslate := { x := 0, y := 0 },
          imageScaleValue := 1, imageTranslateValue := { x := 0, y := 0 },
          isScrolling := false } (some 750) =
      some { imageIndex := 1, imageScale := 1 / 2,
             imageTranslate := { x := 10, y := 20 }, imageScaleValue := 1 / 2,
             imageTranslateValue := { x := 10, y := 20 }, isScrolling := false } ∧
    onNextImage 750
        [{ scale := 1, translate := { x := 0, y := 0 } },
         { scale := 1 / 2, translate := { x := 10, y := 20 } }]
        { imageIndex := 1, imageScale := 1 / 2,
          imageTranslate := { x := 10, y := 20 }, imageScaleValue := 1 / 2,
          imageTranslateValue := { x := 10, y := 20 }, isScrolling := true }
        (some 750) =
      some { imageIndex := 1, imageScale := 1 / 2,
             imageTranslate := { x := 10, y := 20 }, imageScaleValue := 1 / 2,
             imageTranslateValue := { x := 10, y := 20 }, isScrolling := false } := by
  have hr : jsRound ((some (750 : ℚ)).getD 0 / 750) = 1 := by
    show jsRound ((750 : ℚ) / 750) = 1
    unfold jsRound
    norm_num
  have hm : decide (jsMod ((some (750 : ℚ)).getD 0) 750 > 10) = false := by
    show decide (jsMod (750 : ℚ) 750 > 10) = false
    unfold jsMod jsTrunc
    norm_num
  constructor
  · have key := (onNextImage_spec 750
      [{ scale := 1, translate := { x := 0, y := 0 } },
       { scale := 1 / 2, translate := { x := 10, y := 20 } }]
      { imageIndex := 0, imageScale := 1, imageTranslate := { x := 0, y := 0 },
        imageScaleValue := 1, imageTranslateValue := { x := 0, y := 0 },
        isScrolling := false } (some 750)
      { scale := 1 / 2, translate := { x := 10, y := 20 } }).1
      (by rw [hr]; norm_num) (by rw [hr]; norm_num) (by rw [hr]; rfl)
    rw [key, hr, hm]
  · have key := (onNextImage_spec 750
      [{ scale := 1, translate := { x := 0, y := 0 } },
       { scale := 1 / 2, translate := { x := 10, y := 20 } }]
      { imageIndex := 1, imageScale := 1 / 2,
        imageTranslate := { x := 10, y := 20 }, imageScaleValue := 1 / 2,
        imageTranslateValue := { x := 10, y := 20 }, isScrolling := true }
      (some 750)
      { scale := 1 / 2, translate := { x := 10, y := 20 } }).2 (by rw [hr])
    rw [key, hm]

end ImageView
